import Mathlib

/-!
Verification development for the VoiceCode repository.

The pipeline orchestrator (`src/voicecode/main.py`, class `VoiceCodeApp`) is
embedded as a state type `App` plus pure transition functions that return the
next state together with an explicit trace of side effects (`Eff`).  The
injection engine (`src/voicecode/opencode/cli.py`, class `OpenCodeCLI`) is
embedded as pure functions over candidate-control records, and the persisted
configuration (`src/voicecode/config.py`, class `Config`) as pure functions
over a record of fields, with credential strings modelled as their UTF-8 byte
sequences (naturals below 256).
-/

/-- Python `str.strip()` on a character list: drop whitespace from both
ends. -/
def stripL (s : List Char) : List Char :=
  ((s.dropWhile Char.isWhitespace).reverse.dropWhile Char.isWhitespace).reverse

/-- Python `str.strip()` as used on recognized text and send-key values
(the whitespace characters exercised here are ASCII). -/
def pyStrip (s : String) : String := String.mk (stripL s.data)

/-- Python `str.lower()` on the ASCII strings used for send-key values. -/
def pyLower (s : String) : String := String.mk (s.data.map Char.toLower)

/-- The orchestrator states of `VoiceCodeApp._state`:
`"IDLE" | "RECORDING" | "RECOGNIZING" | "SENDING"`. -/
inductive PState where
  | IDLE
  | RECORDING
  | RECOGNIZING
  | SENDING
deriving DecidableEq, Repr

/-- Events placed on `VoiceCodeApp._queue` (the `EVENT_*` constants of
`main.py`), each with its payload. Audio buffers are byte lists. -/
inductive Ev where
  | recordingStopped (audio : List Nat)
  | recognitionResult (text : String)
  | recognitionError (msg : String)
  | sendComplete (msg : String)
  | sendError (msg : String)
deriving DecidableEq, Repr

/-- Side effects performed by the orchestrator's handlers, in program order:
tray status changes, tray balloon messages (`TrayIcon.show_message`, the
user-visible notifications), logger calls, recorder start/stop, queue posts,
and worker-thread spawns (`threading.Thread(...).start()`). -/
inductive Eff where
  | trayStatus (s : String)
  | trayMessage (title body : String)
  | logInfo (msg : String)
  | logWarn (msg : String)
  | recorderStart
  | recorderStop
  | enqueueEvent (e : Ev)
  | spawnRecognize (audio : List Nat)
  | spawnSend (msg : String)
deriving DecidableEq, Repr

/-- The orchestrator state relevant to dispatch: the `_state` field and
whether `_build_speech` produced a configured speech client (`_speech` is
not `None`). -/
structure App where
  state : PState
  speechConfigured : Bool
deriving DecidableEq, Repr

/-- `VoiceCodeApp._on_activate`: guarded on `IDLE`; on success moves to
`RECORDING`, updates the tray, logs, and starts the recorder. -/
def on_activate (app : App) : App × List Eff :=
  if app.state = PState.IDLE then
    ({ app with state := PState.RECORDING },
     [Eff.trayStatus "recording",
      Eff.trayMessage "VoiceCode" "开始录音",
      Eff.logInfo "开始录音",
      Eff.recorderStart])
  else (app, [])

/-- `VoiceCodeApp._on_deactivate`: guarded on `RECORDING`; on success moves to
`RECOGNIZING`, updates the tray, logs, stops the recorder (which hands back
the buffered audio) and enqueues a `recording_stopped` event carrying it. -/
def on_deactivate (audio : List Nat) (app : App) : App × List Eff :=
  if app.state = PState.RECORDING then
    ({ app with state := PState.RECOGNIZING },
     [Eff.trayStatus "recognizing",
      Eff.trayMessage "VoiceCode" "结束录音，开始识别",
      Eff.logInfo "结束录音，开始识别",
      Eff.recorderStop,
      Eff.enqueueEvent (Ev.recordingStopped audio)])
  else (app, [])

/-- `VoiceCodeApp._reset` (manual reset): forces `_state` to `IDLE`, sets the
tray status, and stops the recorder, regardless of the current state. -/
def manual_reset (app : App) : App × List Eff :=
  ({ app with state := PState.IDLE },
   [Eff.logInfo "手动重置", Eff.trayStatus "idle", Eff.recorderStop])

/-- `VoiceCodeApp._to_idle`: set `_state` to `IDLE` and the tray status to
idle. -/
def to_idle (app : App) : App × List Eff :=
  ({ app with state := PState.IDLE }, [Eff.trayStatus "idle"])

/-- `VoiceCodeApp._handle_recording_stopped`: empty buffer goes straight back
to idle with only a log warning; an unconfigured speech client notifies and
goes idle; otherwise a recognition worker thread is spawned. -/
def handle_recording_stopped (audio : List Nat) (app : App) : App × List Eff :=
  if audio = [] then
    let (app1, effs) := to_idle app
    (app1, Eff.logWarn "录音数据为空" :: effs)
  else if ¬app.speechConfigured then
    let (app1, effs) := to_idle app
    (app1,
     Eff.trayMessage "VoiceCode" "讯飞密钥未配置" ::
     Eff.logWarn "讯飞密钥未配置" :: effs)
  else
    (app, [Eff.spawnRecognize audio])

/-- `VoiceCodeApp._handle_recognition_result`: strips the text; an empty
result goes back to idle with only a log warning; otherwise the state is set
to `SENDING` and a send worker thread is spawned with the message. -/
def handle_recognition_result (text : String) (app : App) : App × List Eff :=
  let message := pyStrip text
  if message = "" then
    let (app1, effs) := to_idle app
    (app1, Eff.logWarn "识别结果为空" :: effs)
  else
    ({ app with state := PState.SENDING },
     [Eff.logInfo ("识别结果：" ++ message), Eff.spawnSend message])

/-- `VoiceCodeApp._handle_recognition_error`: one tray notification, a log
warning, and back to idle. -/
def handle_recognition_error (msg : String) (app : App) : App × List Eff :=
  let (app1, effs) := to_idle app
  (app1,
   Eff.trayMessage "VoiceCode" ("识别错误：" ++ msg) ::
   Eff.logWarn ("识别错误：" ++ msg) :: effs)

/-- `VoiceCodeApp._handle_send_complete`: back to idle, no notification. -/
def handle_send_complete (app : App) : App × List Eff :=
  to_idle app

/-- `VoiceCodeApp._handle_send_error`: one tray notification, a log warning,
and back to idle. -/
def handle_send_error (msg : String) (app : App) : App × List Eff :=
  let (app1, effs) := to_idle app
  (app1,
   Eff.trayMessage "VoiceCode" ("发送错误：" ++ msg) ::
   Eff.logWarn ("发送错误：" ++ msg) :: effs)

/-- The body of `VoiceCodeApp._poll_queue` for a single dequeued event: the
handlers are selected purely by the event kind; no prior-state check is
performed before a handler runs. -/
def dispatch (app : App) (e : Ev) : App × List Eff :=
  match e with
  | Ev.recordingStopped audio => handle_recording_stopped audio app
  | Ev.recognitionResult text => handle_recognition_result text app
  | Ev.recognitionError msg => handle_recognition_error msg app
  | Ev.sendComplete _ => handle_send_complete app
  | Ev.sendError msg => handle_send_error msg app

/-- Number of user-visible notifications (tray balloon messages) in an
effect trace. -/
def notifCount (effs : List Eff) : Nat :=
  effs.countP (fun e =>
    match e with
    | Eff.trayMessage _ _ => true
    | _ => false)

/-- A control/window bounding rectangle (`pywinauto` `RECT`), with
`width = right - left` and `height = bottom - top` as in
`RECT.width()`/`RECT.height()`. -/
structure Rect where
  left : Int
  top : Int
  right : Int
  bottom : Int
deriving DecidableEq, Repr

/-- `RECT.width()`. -/
def Rect.width (r : Rect) : Int := r.right - r.left

/-- `RECT.height()`. -/
def Rect.height (r : Rect) : Int := r.bottom - r.top

/-- A candidate UI control inside the matched window, as observed by
`_send_to_opencode_desktop_input`: its rectangle, visibility and enabled
state, whether it has a `set_edit_text` attribute (the sort key), and
whether its `set_focus` and keystroke-injection (`type_keys`/`send_keys`)
calls succeed (raise no exception). -/
structure Ctrl where
  rect : Rect
  visible : Bool
  enabled : Bool
  hasSetEditText : Bool
  focusOk : Bool
  typeOk : Bool
deriving DecidableEq, Repr

/-- Actions performed by the injection engine, in program order. -/
inductive IAct where
  | focusCtrl
  | clearInput
  | typeText (msg : String)
  | submitEnter
  | submitCtrlEnter
deriving DecidableEq, Repr

/-- `OpenCodeCLI._send_to_opencode_desktop_input.try_write`: focus the
control — a raised `set_focus` aborts the candidate at once — then clear any
existing content and type the message by synthetic keystrokes; the result is
the success of the keystroke injection. -/
def try_write (msg : String) (c : Ctrl) : Bool × List IAct :=
  if ¬c.focusOk then (false, [IAct.focusCtrl])
  else (c.typeOk, [IAct.focusCtrl, IAct.clearInput, IAct.typeText msg])

/-- `OpenCodeCLI._submit_message`: dispatch the configured send keystroke —
the modified Ctrl+Enter combination exactly when the stored send key equals
"ctrl+enter", plain Enter otherwise; `submitOk` is whether the dispatch
raises no OS-level error. -/
def submit_message (sendKey : String) (submitOk : Bool) : Bool × List IAct :=
  if sendKey = "ctrl+enter" then (submitOk, [IAct.submitCtrlEnter])
  else (submitOk, [IAct.submitEnter])

/-- The candidate-attempt loops of `_send_to_opencode_desktop_input`
(bottom candidates then other candidates, here already concatenated in
attempt order): try each candidate in order; the first successful write
immediately returns the result of `_submit_message`, and no later candidate
is attempted. -/
def runCandidates (sendKey : String) (submitOk : Bool) (msg : String) :
    List Ctrl → Bool × List IAct
  | [] => (false, [])
  | c :: rest =>
    if (try_write msg c).1 then
      ((submit_message sendKey submitOk).1,
       (try_write msg c).2 ++ (submit_message sendKey submitOk).2)
    else
      ((runCandidates sendKey submitOk msg rest).1,
       (try_write msg c).2 ++ (runCandidates sendKey submitOk msg rest).2)

/-- The visibility/enabled/degenerate-rectangle pre-filter of
`_send_to_opencode_desktop_input` (its `filtered` list). -/
def preFilter (ctrls : List Ctrl) : List Ctrl :=
  ctrls.filter (fun c =>
    c.visible && c.enabled &&
    !(c.rect.width ≤ 0 || c.rect.height ≤ 0) &&
    !(c.rect.right < -10000 || c.rect.bottom < -10000))

/-- `in_bottom_area`: with a known window rectangle, the control's bottom
edge must lie within `max 220 (35% of window height)` of the window bottom;
with no window rectangle every control counts as bottom-area. -/
def in_bottom_area (winRect : Option Rect) (r : Rect) : Bool :=
  match winRect with
  | none => true
  | some wr =>
    let bottomBand := max 220 (wr.height * 35 / 100)
    r.bottom ≥ wr.bottom - bottomBand

/-- The bottom/other partition of `_send_to_opencode_desktop_input`:
degenerate rectangles are dropped; with a known window rectangle, controls
taller than 45% of the window height or narrower than 30% of the window
width are dropped; survivors go to the bottom-band list or the other list.
(Python's `int(h * 0.45)` is modelled as exact floor division `h * 45 / 100`;
the two agree at every input considered here.) -/
def partitionCandidates (winRect : Option Rect) :
    List Ctrl → List Ctrl × List Ctrl
  | [] => ([], [])
  | c :: cs =>
    let (b, o) := partitionCandidates winRect cs
    let r := c.rect
    if r.height ≤ 0 || r.width ≤ 0 then (b, o)
    else
      let dropBySize :=
        match winRect with
        | none => false
        | some wr =>
          r.height > wr.height * 45 / 100 || r.width < wr.width * 30 / 100
      if dropBySize then (b, o)
      else if in_bottom_area winRect r then (c :: b, o)
      else (b, c :: o)

/-- The sort key of `_send_to_opencode_desktop_input.sort_key`:
`(1 if hasattr set_edit_text else 0, rect.bottom)`. -/
def sortKey (c : Ctrl) : Nat × Int :=
  (if c.hasSetEditText then 1 else 0, c.rect.bottom)

/-- Lexicographic at-least-as-great comparison on sort keys. -/
def keyGE (a b : Nat × Int) : Bool :=
  b.1 < a.1 || (a.1 = b.1 && b.2 ≤ a.2)

/-- Stable insertion for descending sort by `sortKey`. -/
def insertDesc (x : Ctrl) : List Ctrl → List Ctrl
  | [] => [x]
  | y :: ys => if keyGE (sortKey x) (sortKey y) then x :: y :: ys
               else y :: insertDesc x ys

/-- Python's stable `list.sort(key=sort_key, reverse=True)`. -/
def sortDesc : List Ctrl → List Ctrl
  | [] => []
  | x :: xs => insertDesc x (sortDesc xs)

/-- The full candidate ranking of `_send_to_opencode_desktop_input`: apply
the pre-filter (kept only when non-empty, as in the code), partition into
bottom/other, sort each descending by `(has set_edit_text, bottom edge)`,
and attempt bottom candidates before the others. -/
def orderedCandidates (winRect : Option Rect) (ctrls : List Ctrl) :
    List Ctrl :=
  let f := preFilter ctrls
  let cs := if f = [] then ctrls else f
  let (b, o) := partitionCandidates winRect cs
  sortDesc b ++ sortDesc o

/-- Python `str.lower()` on titles/paths, modelled on character lists. -/
def lowerL (s : List Char) : List Char := s.map Char.toLower

/-- Whether `needle` starts the list `hay`. -/
def startsWithL : List Char → List Char → Bool
  | [], _ => true
  | _ :: _, [] => false
  | a :: as, b :: bs => (a == b) && startsWithL as bs

/-- Python's substring test `needle in hay`, on character lists: `needle`
occurs contiguously somewhere in `hay`. -/
def containsL (needle : List Char) : List Char → Bool
  | [] => needle.isEmpty
  | b :: bs => startsWithL needle (b :: bs) || containsL needle bs

/-- A top-level window as observed by `OpenCodeCLI._find_hwnd_candidate`:
its title (`GetWindowTextW`, empty when the length is not positive), the
owning process's executable image path (`QueryFullProcessImageNameW`),
its visibility (`IsWindowVisible`) and its rectangle (`GetWindowRect`). -/
structure WinInfo where
  title : List Char
  procImage : List Char
  visible : Bool
  rect : Rect
deriving DecidableEq, Repr

/-- `looks_like_window`: both dimensions strictly above 100 pixels
(filters tooltips/overlays). -/
def looks_like_window (w : WinInfo) : Bool :=
  w.rect.width > 100 && w.rect.height > 100

/-- The title test of `enum_proc`: a non-empty title that contains the
keyword as a case-insensitive substring. -/
def titleMatches (keyword : List Char) (w : WinInfo) : Bool :=
  !(w.title = []) && containsL (lowerL keyword) (lowerL w.title)

/-- `looks_like_opencode_process`: the lowered executable path contains one
of the product-name fragments "opencode", "open-code", "open code". -/
def looks_like_opencode_process (path : List Char) : Bool :=
  let low := lowerL path
  !(low = []) &&
    (containsL "opencode".toList low ||
     containsL "open-code".toList low ||
     containsL "open code".toList low)

/-- `OpenCodeCLI._find_hwnd_candidate`'s `enum_proc` over the windows in
enumeration order: skip invisible or too-small windows; stop at the first
window whose title matches the keyword or whose process image looks like
the target product. -/
def find_hwnd_candidate (keyword : List Char) : List WinInfo → Option WinInfo
  | [] => none
  | w :: ws =>
    if !w.visible then find_hwnd_candidate keyword ws
    else if !looks_like_window w then find_hwnd_candidate keyword ws
    else if titleMatches keyword w then some w
    else if looks_like_opencode_process w.procImage then some w
    else find_hwnd_candidate keyword ws

/-- The claim's window-match predicate, in the spec's words: a visible
top-level window above the minimum size threshold whose title contains the
configured keyword as a case-insensitive substring, or whose owning
process's executable path contains the product-name fragment. -/
def specWindowMatch (keyword : List Char) (w : WinInfo) : Bool :=
  w.visible && looks_like_window w &&
  (containsL (lowerL keyword) (lowerL w.title) ||
   looks_like_opencode_process w.procImage)

/-- `Config.set_send_key`: strip and lower the supplied value and replace
anything outside the recognized two-value set by "enter"; returns the value
stored in the config data. -/
def set_send_key (send_key : String) : String :=
  let value := pyLower (pyStrip (if send_key = "" then "" else send_key))
  if value = "enter" || value = "ctrl+enter" then value else "enter"

/-- `Config.get_send_key`: read the stored value (defaulting to "enter"
when empty), strip and lower it, and replace anything outside the
recognized two-value set by "enter". -/
def get_send_key (stored : String) : String :=
  let value := pyLower (pyStrip (if stored = "" then "enter" else stored))
  if value = "enter" || value = "ctrl+enter" then value else "enter"

/-- The character for a six-bit value in the standard base64 alphabet
(`base64.b64encode`). -/
def b64char (n : Nat) : Char :=
  if n < 26 then Char.ofNat (65 + n)
  else if n < 52 then Char.ofNat (97 + (n - 26))
  else if n < 62 then Char.ofNat (48 + (n - 52))
  else if n = 62 then '+'
  else '/'

/-- The six-bit value of a base64 alphabet character
(`base64.b64decode`). -/
def b64val (c : Char) : Nat :=
  if 65 ≤ c.toNat ∧ c.toNat ≤ 90 then c.toNat - 65
  else if 97 ≤ c.toNat ∧ c.toNat ≤ 122 then 26 + (c.toNat - 97)
  else if 48 ≤ c.toNat ∧ c.toNat ≤ 57 then 52 + (c.toNat - 48)
  else if c = '+' then 62
  else 63

/-- Standard padded base64 encoding of a byte sequence
(`base64.b64encode`): three input bytes become four alphabet characters;
a trailing group of one or two bytes is padded with `=`. -/
def b64encodeBytes : List Nat → List Char
  | [] => []
  | [b0] =>
    [b64char (b0 / 4), b64char (b0 % 4 * 16), '=', '=']
  | [b0, b1] =>
    [b64char (b0 / 4), b64char (b0 % 4 * 16 + b1 / 16),
     b64char (b1 % 16 * 4), '=']
  | b0 :: b1 :: b2 :: rest =>
    b64char (b0 / 4) :: b64char (b0 % 4 * 16 + b1 / 16) ::
    b64char (b1 % 16 * 4 + b2 / 64) :: b64char (b2 % 64) ::
    b64encodeBytes rest

/-- Standard padded base64 decoding (`base64.b64decode`): groups of four
characters; `=` padding is accepted only at the end; malformed input
decodes to `none` (the raised `binascii.Error`). -/
def b64decodeBytes : List Char → Option (List Nat)
  | [] => some []
  | c0 :: c1 :: c2 :: c3 :: rest =>
    if c2 = '=' then
      if c3 = '=' ∧ rest = [] then
        some [b64val c0 * 4 + b64val c1 / 16]
      else none
    else if c3 = '=' then
      if rest = [] then
        some [b64val c0 * 4 + b64val c1 / 16,
              b64val c1 % 16 * 16 + b64val c2 / 4]
      else none
    else
      match b64decodeBytes rest with
      | some bs =>
        some ((b64val c0 * 4 + b64val c1 / 16) ::
              (b64val c1 % 16 * 16 + b64val c2 / 4) ::
              (b64val c2 % 4 * 64 + b64val c3) :: bs)
      | none => none
  | _ => none

/-- `Config._encode`: the empty string passes through, any other value is
base64-encoded (the string being modelled as its UTF-8 bytes). -/
def config_encode (v : List Nat) : List Char :=
  if v = [] then [] else b64encodeBytes v

/-- `Config._decode`: the empty string passes through, any other value is
base64-decoded, with any decoding failure mapped to the empty string. -/
def config_decode (s : List Char) : List Nat :=
  if s = [] then [] else (b64decodeBytes s).getD []

/-- The persisted configuration fields (`Config._data`): the three xfyun
credentials as UTF-8 byte sequences, and the hotkey, window-title keyword
and send-key strings. -/
structure ConfigData where
  xfyun_appid : List Nat
  xfyun_api_secret : List Nat
  xfyun_api_key : List Nat
  hotkey : String
  window_title_keyword : String
  send_key : String
deriving DecidableEq, Repr

/-- The JSON file written by `Config.save`: credentials base64-encoded,
the remaining fields verbatim. -/
structure SavedConfig where
  xfyun_appid : List Char
  xfyun_api_secret : List Char
  xfyun_api_key : List Char
  hotkey : String
  window_title_keyword : String
  send_key : String
deriving DecidableEq, Repr

/-- `Config.save`: encode the three credentials, copy the rest. -/
def config_save (c : ConfigData) : SavedConfig :=
  { xfyun_appid := config_encode c.xfyun_appid
    xfyun_api_secret := config_encode c.xfyun_api_secret
    xfyun_api_key := config_encode c.xfyun_api_key
    hotkey := c.hotkey
    window_title_keyword := c.window_title_keyword
    send_key := c.send_key }

/-- `Config.load` on a file previously produced by `Config.save` (all keys
present): decode the three credentials, copy the rest. -/
def config_load (f : SavedConfig) : ConfigData :=
  { xfyun_appid := config_decode f.xfyun_appid
    xfyun_api_secret := config_decode f.xfyun_api_secret
    xfyun_api_key := config_decode f.xfyun_api_key
    hotkey := f.hotkey
    window_title_keyword := f.window_title_keyword
    send_key := f.send_key }

/-- Number of send-keystroke dispatches in an injection trace. -/
def submitCount (tr : List IAct) : Nat :=
  tr.countP (fun a =>
    match a with
    | IAct.submitEnter => true
    | IAct.submitCtrlEnter => true
    | _ => false)

/-- The window rectangle of the C5 ranking scenario: 1000 x 1000. -/
def winRectC5 : Rect := ⟨0, 0, 1000, 1000⟩

/-- Scenario control A: height 900 = 90% of the window height. -/
def ctrlA : Ctrl :=
  { rect := ⟨0, 50, 1000, 950⟩, visible := true, enabled := true,
    hasSetEditText := false, focusOk := true, typeOk := true }

/-- Scenario control B: width 100 = 10% of the window width. -/
def ctrlB : Ctrl :=
  { rect := ⟨0, 850, 100, 950⟩, visible := true, enabled := true,
    hasSetEditText := false, focusOk := true, typeOk := true }

/-- Scenario control C: height 100 (10%), width 500 (50%),
bottom-aligned. -/
def ctrlC : Ctrl :=
  { rect := ⟨100, 900, 600, 1000⟩, visible := true, enabled := true,
    hasSetEditText := false, focusOk := true, typeOk := true }

/-- A candidate control whose `set_focus` raises but whose keystroke
injection would succeed if attempted. -/
def focusFailCtrl : Ctrl :=
  { rect := ⟨100, 900, 600, 1000⟩, visible := true, enabled := true,
    hasSetEditText := false, focusOk := false, typeOk := true }

/-- A visible, large window titled "Notepad" owned by notepad.exe. -/
def notepadWin : WinInfo :=
  { title := "Notepad".toList,
    procImage := "C:\\Windows\\notepad.exe".toList,
    visible := true, rect := ⟨0, 0, 800, 600⟩ }

/-- A visible, large window titled "OpenCode — untitled". -/
def openCodeWin : WinInfo :=
  { title := "OpenCode — untitled".toList,
    procImage := "C:\\Apps\\opencode\\OpenCode.exe".toList,
    visible := true, rect := ⟨0, 0, 1200, 800⟩ }

/-- C4: the hotkey-edge handlers respect the state-machine guards:
`_on_activate` moves to `RECORDING` (starting the recorder) only from
`IDLE` and is otherwise a no-op with no side effects; `_on_deactivate`
moves to `RECOGNIZING` (stopping the recorder and enqueuing the buffer)
only from `RECORDING` and is otherwise a no-op. -/
theorem hotkey_edge_guards (app : App) (audio : List Nat) :
    (app.state ≠ PState.IDLE → on_activate app = (app, [])) ∧
    (app.state = PState.IDLE →
      (on_activate app).1.state = PState.RECORDING ∧
      Eff.recorderStart ∈ (on_activate app).2) ∧
    (app.state ≠ PState.RECORDING → on_deactivate audio app = (app, [])) ∧
    (app.state = PState.RECORDING →
      (on_deactivate audio app).1.state = PState.RECOGNIZING ∧
      Eff.recorderStop ∈ (on_deactivate audio app).2 ∧
      Eff.enqueueEvent (Ev.recordingStopped audio) ∈ (on_deactivate audio app).2) := by
  refine ⟨fun h => ?_, fun h => ?_, fun h => ?_, fun h => ?_⟩ <;>
    simp [on_activate, on_deactivate, h]

/-- Witness for C4 at concrete states. -/
theorem hotkey_edge_guards_wit :
    on_activate ⟨PState.SENDING, true⟩ = (⟨PState.SENDING, true⟩, []) ∧
    (on_activate ⟨PState.IDLE, true⟩).1.state = PState.RECORDING ∧
    on_deactivate [1] ⟨PState.IDLE, true⟩ = (⟨PState.IDLE, true⟩, []) ∧
    (on_deactivate [1] ⟨PState.RECORDING, true⟩).1.state = PState.RECOGNIZING :=
  ⟨(hotkey_edge_guards ⟨PState.SENDING, true⟩ [1]).1 (by decide),
   ((hotkey_edge_guards ⟨PState.IDLE, true⟩ [1]).2.1 rfl).1,
   (hotkey_edge_guards ⟨PState.IDLE, true⟩ [1]).2.2.1 (by decide),
   ((hotkey_edge_guards ⟨PState.RECORDING, true⟩ [1]).2.2.2 rfl).1⟩

/-- C1 counterexample: after a manual reset from `RECOGNIZING` has returned
the state to `IDLE`, dispatching a late recognition-result event is NOT
discarded: it transitions the state to `SENDING` and spawns a send worker,
so the dispatch loop performs no expected-prior-state validation. -/
theorem stale_event_still_applied :
    (manual_reset ⟨PState.RECOGNIZING, true⟩).1.state = PState.IDLE ∧
    (dispatch (manual_reset ⟨PState.RECOGNIZING, true⟩).1
        (Ev.recognitionResult "hello")).1.state = PState.SENDING ∧
    Eff.spawnSend "hello" ∈
      (dispatch (manual_reset ⟨PState.RECOGNIZING, true⟩).1
        (Ev.recognitionResult "hello")).2 := by decide

/-- C1 amended: the dispatch loop selects a handler purely by event kind and
performs no prior-state validation; a completion event delivered after an
intervening manual reset (state `IDLE`) is still acted on — a non-empty
recognition result transitions `IDLE` to `SENDING` and spawns a send
worker, and a recognition error still emits its notification. -/
theorem dispatch_ignores_prior_state (app : App) (text msg : String)
    (_hidle : app.state = PState.IDLE) (hne : pyStrip text ≠ "") :
    (dispatch app (Ev.recognitionResult text)).1.state = PState.SENDING ∧
    Eff.spawnSend (pyStrip text) ∈
      (dispatch app (Ev.recognitionResult text)).2 ∧
    Eff.trayMessage "VoiceCode" ("识别错误：" ++ msg) ∈
      (dispatch app (Ev.recognitionError msg)).2 := by
  simp [dispatch, handle_recognition_result, handle_recognition_error,
    to_idle, hne]

/-- Witness for the amended C1. -/
theorem dispatch_ignores_prior_state_wit :
    (dispatch ⟨PState.IDLE, true⟩ (Ev.recognitionResult "hello")).1.state
      = PState.SENDING ∧
    Eff.spawnSend (pyStrip "hello") ∈
      (dispatch ⟨PState.IDLE, true⟩ (Ev.recognitionResult "hello")).2 ∧
    Eff.trayMessage "VoiceCode" ("识别错误：" ++ "x") ∈
      (dispatch ⟨PState.IDLE, true⟩ (Ev.recognitionError "x")).2 :=
  dispatch_ignores_prior_state ⟨PState.IDLE, true⟩ "hello" "x" rfl (by decide)

/-- C3 counterexample: the empty-audio-buffer terminal failure is silent —
it returns to `IDLE` having produced zero user-visible notifications,
refuting "every terminal failure produces exactly one notification". -/
theorem empty_buffer_failure_is_silent :
    (dispatch ⟨PState.RECOGNIZING, true⟩ (Ev.recordingStopped [])).1.state
      = PState.IDLE ∧
    notifCount
      (dispatch ⟨PState.RECOGNIZING, true⟩ (Ev.recordingStopped [])).2 = 0 := by
  decide

/-- C3 amended: every terminal failure ends in `IDLE`; a recognition error,
a send error, and an unconfigured speech client each produce exactly one
notification, but the empty-audio-buffer and empty-recognition-result
failures are silent (zero notifications, only a log warning). -/
theorem terminal_failure_notifications (app : App) (m : String)
    (audio : List Nat) (t : String) :
    ((dispatch app (Ev.recognitionError m)).1.state = PState.IDLE ∧
      notifCount (dispatch app (Ev.recognitionError m)).2 = 1) ∧
    ((dispatch app (Ev.sendError m)).1.state = PState.IDLE ∧
      notifCount (dispatch app (Ev.sendError m)).2 = 1) ∧
    (audio ≠ [] → app.speechConfigured = false →
      (dispatch app (Ev.recordingStopped audio)).1.state = PState.IDLE ∧
      notifCount (dispatch app (Ev.recordingStopped audio)).2 = 1) ∧
    ((dispatch app (Ev.recordingStopped [])).1.state = PState.IDLE ∧
      notifCount (dispatch app (Ev.recordingStopped [])).2 = 0) ∧
    (pyStrip t = "" →
      (dispatch app (Ev.recognitionResult t)).1.state = PState.IDLE ∧
      notifCount (dispatch app (Ev.recognitionResult t)).2 = 0) := by
  refine ⟨⟨?_, ?_⟩, ⟨?_, ?_⟩, fun h1 h2 => ⟨?_, ?_⟩, ⟨?_, ?_⟩, fun h => ⟨?_, ?_⟩⟩ <;>
    simp_all [dispatch, handle_recognition_error, handle_send_error,
      handle_recording_stopped, handle_recognition_result, to_idle, notifCount]

/-- Witness for the amended C3. -/
theorem terminal_failure_notifications_wit :
    (((dispatch ⟨PState.RECOGNIZING, false⟩ (Ev.recognitionError "x")).1.state
        = PState.IDLE ∧
      notifCount
        (dispatch ⟨PState.RECOGNIZING, false⟩ (Ev.recognitionError "x")).2 = 1)) ∧
    ((dispatch ⟨PState.RECOGNIZING, false⟩ (Ev.recordingStopped [7])).1.state
        = PState.IDLE ∧
      notifCount
        (dispatch ⟨PState.RECOGNIZING, false⟩ (Ev.recordingStopped [7])).2 = 1) ∧
    ((dispatch ⟨PState.RECOGNIZING, false⟩ (Ev.recognitionResult "  ")).1.state
        = PState.IDLE ∧
      notifCount
        (dispatch ⟨PState.RECOGNIZING, false⟩ (Ev.recognitionResult "  ")).2 = 0) :=
  ⟨(terminal_failure_notifications ⟨PState.RECOGNIZING, false⟩ "x" [7] "  ").1,
   (terminal_failure_notifications ⟨PState.RECOGNIZING, false⟩ "x" [7] "  ").2.2.1
     (by decide) rfl,
   (terminal_failure_notifications ⟨PState.RECOGNIZING, false⟩ "x" [7] "  ").2.2.2.2
     (by decide)⟩

/-- C6: an empty audio buffer returns the pipeline directly to `IDLE`
without starting a recognition worker (the speech client's `recognize` is
never invoked). -/
theorem empty_buffer_no_recognition (app : App) :
    (dispatch app (Ev.recordingStopped [])).1.state = PState.IDLE ∧
    ∀ audio, Eff.spawnRecognize audio ∉
      (dispatch app (Ev.recordingStopped [])).2 := by
  simp [dispatch, handle_recording_stopped, to_idle]

/-- C2 counterexample: a candidate whose `set_focus` raises is abandoned at
once even though its keystroke injection would succeed: `try_write` returns
failure without ever attempting the injection step. -/
theorem focus_failure_aborts_candidate :
    focusFailCtrl.focusOk = false ∧ focusFailCtrl.typeOk = true ∧
    (try_write "hi" focusFailCtrl).1 = false ∧
    IAct.typeText "hi" ∉ (try_write "hi" focusFailCtrl).2 := by decide

/-- C2 amended: a control-level focus failure IS fatal for that candidate —
`try_write` returns failure immediately without attempting keystroke
injection; when the focus call succeeds, the candidate is abandoned exactly
when keystroke injection itself fails. -/
theorem try_write_focus_fatal (msg : String) (c : Ctrl) :
    (c.focusOk = false →
      (try_write msg c).1 = false ∧
      IAct.typeText msg ∉ (try_write msg c).2) ∧
    (c.focusOk = true →
      (try_write msg c).1 = c.typeOk ∧
      IAct.typeText msg ∈ (try_write msg c).2) := by
  constructor <;> intro h <;> simp [try_write, h]

/-- Witness for the amended C2. -/
theorem try_write_focus_fatal_wit :
    ((try_write "hi" focusFailCtrl).1 = false ∧
      IAct.typeText "hi" ∉ (try_write "hi" focusFailCtrl).2) ∧
    ((try_write "hi" ctrlC).1 = ctrlC.typeOk ∧
      IAct.typeText "hi" ∈ (try_write "hi" ctrlC).2) :=
  ⟨(try_write_focus_fatal "hi" focusFailCtrl).1 rfl,
   (try_write_focus_fatal "hi" ctrlC).2 rfl⟩

/-- C5: in the 1000x1000 window, control A (height 90% of the window
height) is excluded by the height-ratio cap, control B (width 10% of the
window width) by the width-ratio floor, and the bottom-aligned control C is
selected as the first candidate attempted. -/
theorem control_ranking_scenario :
    ctrlA.rect.height > winRectC5.height * 45 / 100 ∧
    ctrlB.rect.width < winRectC5.width * 30 / 100 ∧
    orderedCandidates (some winRectC5) [ctrlA, ctrlB, ctrlC] = [ctrlC] := by
  decide

/-- `_submit_message` characterized: it reports the dispatch outcome and
emits exactly the configured send keystroke. -/
theorem submit_message_eq (sendKey : String) (submitOk : Bool) :
    submit_message sendKey submitOk =
      (submitOk,
       [if sendKey = "ctrl+enter" then IAct.submitCtrlEnter
        else IAct.submitEnter]) := by
  unfold submit_message; split <;> simp_all

/-- A `try_write` trace contains no send-keystroke dispatch. -/
theorem try_write_no_submit (msg : String) (c : Ctrl) :
    submitCount (try_write msg c).2 = 0 := by
  unfold try_write submitCount
  split <;> simp

/-- The write traces of a list of failed candidates contain no
send-keystroke dispatch. -/
theorem no_submit_in_writes (msg : String) (ds : List Ctrl) :
    submitCount ((ds.map (fun d => (try_write msg d).2)).flatten) = 0 := by
  induction ds with
  | nil => rfl
  | cons d ds ih =>
    have hd := try_write_no_submit msg d
    unfold submitCount at hd ih ⊢
    simp only [List.map_cons, List.flatten_cons, List.countP_append]
    omega

/-- Unfolding equation for `runCandidates` on a non-empty candidate
list. -/
theorem runCandidates_cons (sendKey : String) (submitOk : Bool)
    (msg : String) (c : Ctrl) (rest : List Ctrl) :
    runCandidates sendKey submitOk msg (c :: rest) =
      if (try_write msg c).1 then
        ((submit_message sendKey submitOk).1,
         (try_write msg c).2 ++ (submit_message sendKey submitOk).2)
      else
        ((runCandidates sendKey submitOk msg rest).1,
         (try_write msg c).2 ++ (runCandidates sendKey submitOk msg rest).2) :=
  rfl

/-- The candidate-attempt loop on a list whose first successful writer is
`c`: every candidate before `c` fails, `c`'s write succeeds, the submit
keystroke is dispatched once, and the candidates after `c` are never
touched. -/
theorem runCandidates_first_success (sendKey : String) (submitOk : Bool)
    (msg : String) (pre : List Ctrl) (c : Ctrl) (post : List Ctrl)
    (hpre : ∀ d ∈ pre, (try_write msg d).1 = false)
    (hc : (try_write msg c).1 = true) :
    runCandidates sendKey submitOk msg (pre ++ c :: post) =
      (submitOk,
       (pre.map (fun d => (try_write msg d).2)).flatten ++
       (try_write msg c).2 ++
       [if sendKey = "ctrl+enter" then IAct.submitCtrlEnter
        else IAct.submitEnter]) := by
  induction pre with
  | nil =>
    rw [List.nil_append, runCandidates_cons, hc, if_pos rfl,
      submit_message_eq]
    simp
  | cons d pre ih =>
    have hd := hpre d (List.mem_cons_self d pre)
    have ih2 := ih (fun x hx => hpre x (List.mem_cons_of_mem d hx))
    rw [List.cons_append, runCandidates_cons, hd,
      if_neg Bool.false_ne_true, ih2]
    simp [List.append_assoc]

/-- C7: for every successful write, the submission step dispatches exactly
one send keystroke — the modified Ctrl+Enter combination exactly when the
configured send key is "ctrl+enter", plain Enter otherwise — and no
further candidates are attempted after the first successful write. -/
theorem one_submission_per_write (sendKey : String) (submitOk : Bool)
    (msg : String) (pre : List Ctrl) (c : Ctrl) (post : List Ctrl)
    (hpre : ∀ d ∈ pre, (try_write msg d).1 = false)
    (hc : (try_write msg c).1 = true) :
    runCandidates sendKey submitOk msg (pre ++ c :: post) =
      (submitOk,
       (pre.map (fun d => (try_write msg d).2)).flatten ++
       (try_write msg c).2 ++
       [if sendKey = "ctrl+enter" then IAct.submitCtrlEnter
        else IAct.submitEnter]) ∧
    submitCount (runCandidates sendKey submitOk msg (pre ++ c :: post)).2
      = 1 := by
  have h := runCandidates_first_success sendKey submitOk msg pre c post hpre hc
  refine ⟨h, ?_⟩
  rw [h]
  have h1 := no_submit_in_writes msg pre
  have h2 := try_write_no_submit msg c
  unfold submitCount at *
  simp only [List.countP_append, h1, h2]
  split <;> simp [List.countP_cons]

/-- Witness for C7: one failing candidate, then the successful one, then a
candidate that is never attempted. -/
theorem one_submission_per_write_wit :
    runCandidates "ctrl+enter" true "hi" [focusFailCtrl, ctrlC, ctrlB] =
      (true,
       ([focusFailCtrl].map (fun d => (try_write "hi" d).2)).flatten ++
       (try_write "hi" ctrlC).2 ++
       [if "ctrl+enter" = "ctrl+enter" then IAct.submitCtrlEnter
        else IAct.submitEnter]) ∧
    submitCount
      (runCandidates "ctrl+enter" true "hi" [focusFailCtrl, ctrlC, ctrlB]).2
      = 1 :=
  one_submission_per_write "ctrl+enter" true "hi" [focusFailCtrl] ctrlC [ctrlB]
    (by decide) (by decide)

/-- A non-empty keyword is not contained in an empty title. -/
theorem containsL_nil_of_ne (kw : List Char) (h : kw ≠ []) :
    containsL (lowerL kw) [] = false := by
  cases kw with
  | nil => exact absurd rfl h
  | cons a t => rfl

/-- C8: window discovery returns the first window in enumeration order that
is visible, above the minimum size threshold, and whose title contains the
configured keyword as a case-insensitive substring or whose owning
process's executable path contains the product-name fragment — i.e. the
Win32 enumeration of `_find_hwnd_candidate` refines the spec's first-match
rule. -/
theorem window_discovery_first_match (keyword : List Char)
    (ws : List WinInfo) (hk : keyword ≠ []) :
    find_hwnd_candidate keyword ws = ws.find? (specWindowMatch keyword) := by
  induction ws with
  | nil => rfl
  | cons w ws ih =>
    cases hv : w.visible with
    | false =>
      have hm : specWindowMatch keyword w = false := by
        simp [specWindowMatch, hv]
      rw [List.find?_cons_of_neg _ (by simp [hm])]
      simp [find_hwnd_candidate, hv, ih]
    | true =>
      cases hl : looks_like_window w with
      | false =>
        have hm : specWindowMatch keyword w = false := by
          simp [specWindowMatch, hl]
        rw [List.find?_cons_of_neg _ (by simp [hm])]
        simp [find_hwnd_candidate, hv, hl, ih]
      | true =>
        cases ht : titleMatches keyword w with
        | true =>
          have hc : containsL (lowerL keyword) (lowerL w.title) = true := by
            simp only [titleMatches, Bool.and_eq_true] at ht
            exact ht.2
          have hm : specWindowMatch keyword w = true := by
            simp [specWindowMatch, hv, hl, hc]
          rw [List.find?_cons_of_pos _ hm]
          simp [find_hwnd_candidate, hv, hl, ht]
        | false =>
          cases hp : looks_like_opencode_process w.procImage with
          | true =>
            have hm : specWindowMatch keyword w = true := by
              simp [specWindowMatch, hv, hl, hp]
            rw [List.find?_cons_of_pos _ hm]
            simp [find_hwnd_candidate, hv, hl, ht, hp]
          | false =>
            have hc : containsL (lowerL keyword) (lowerL w.title) = false := by
              cases hcc : containsL (lowerL keyword) (lowerL w.title) with
              | false => rfl
              | true =>
                by_cases hT : w.title = []
                · rw [hT] at hcc
                  rw [show lowerL ([] : List Char) = [] from rfl] at hcc
                  rw [containsL_nil_of_ne keyword hk] at hcc
                  cases hcc
                · simp [titleMatches, hT, hcc] at ht
            have hm : specWindowMatch keyword w = false := by
              simp [specWindowMatch, hv, hl, hc, hp]
            rw [List.find?_cons_of_neg _ (by simp [hm])]
            simp [find_hwnd_candidate, hv, hl, ht, hp, ih]

/-- Witness for C8: the keyword "OpenCode" skips the Notepad window and
selects the window titled "OpenCode — untitled" (a case-insensitive title
match), the first match in enumeration order. -/
theorem window_discovery_first_match_wit :
    "OpenCode".toList ≠ ([] : List Char) ∧
    find_hwnd_candidate "OpenCode".toList [notepadWin, openCodeWin] =
      [notepadWin, openCodeWin].find? (specWindowMatch "OpenCode".toList) ∧
    find_hwnd_candidate "OpenCode".toList [notepadWin, openCodeWin] =
      some openCodeWin :=
  ⟨by decide,
   window_discovery_first_match "OpenCode".toList [notepadWin, openCodeWin]
     (by decide),
   by decide⟩

/-- C9: the send-key configuration is always normalized into the two-value
set: `set_send_key` and `get_send_key` return "enter" or "ctrl+enter" for
every input, each maps any supplied or stored value whose stripped lowering
is outside the set to "enter", and `_submit_message` dispatches the
modified Ctrl+Enter combination exactly for the value "ctrl+enter" and
plain Enter for every other value. -/
theorem send_key_normalized (s stored : String) (submitOk : Bool) :
    (set_send_key s = "enter" ∨ set_send_key s = "ctrl+enter") ∧
    (get_send_key stored = "enter" ∨ get_send_key stored = "ctrl+enter") ∧
    (pyLower (pyStrip s) ≠ "enter" → pyLower (pyStrip s) ≠ "ctrl+enter" →
      set_send_key s = "enter") ∧
    (pyLower (pyStrip (if stored = "" then "enter" else stored)) ≠ "enter" →
      pyLower (pyStrip (if stored = "" then "enter" else stored))
        ≠ "ctrl+enter" →
      get_send_key stored = "enter") ∧
    (∀ k : String, k ≠ "ctrl+enter" →
      submit_message k submitOk = (submitOk, [IAct.submitEnter])) ∧
    submit_message "ctrl+enter" submitOk =
      (submitOk, [IAct.submitCtrlEnter]) := by
  have hss : (if s = "" then "" else s) = s := by
    by_cases h : s = "" <;> simp [h]
  refine ⟨?_, ?_, fun h1 h2 => ?_, fun g1 g2 => ?_, fun k hk => ?_, ?_⟩
  · by_cases h1 : pyLower (pyStrip s) = "enter"
    · exact Or.inl (by simp [set_send_key, hss, h1])
    · by_cases h2 : pyLower (pyStrip s) = "ctrl+enter"
      · exact Or.inr (by simp [set_send_key, hss, h1, h2])
      · exact Or.inl (by simp [set_send_key, hss, h1, h2])
  · by_cases h1 : pyLower (pyStrip (if stored = "" then "enter" else stored))
        = "enter"
    · exact Or.inl (by simp only [get_send_key]; simp [h1])
    · by_cases h2 : pyLower (pyStrip (if stored = "" then "enter" else stored))
          = "ctrl+enter"
      · exact Or.inr (by simp only [get_send_key]; simp [h1, h2])
      · exact Or.inl (by simp only [get_send_key]; simp [h1, h2])
  · simp [set_send_key, hss, h1, h2]
  · simp only [get_send_key]
    simp [g1, g2]
  · simp [submit_message, hk]
  · simp [submit_message]

/-- Witness for C9: the unrecognized value "FOO" normalizes to "enter"
through both the setter and the getter. -/
theorem send_key_normalized_wit :
    (set_send_key "FOO" = "enter" ∨ set_send_key "FOO" = "ctrl+enter") ∧
    set_send_key "FOO" = "enter" ∧
    get_send_key "FOO" = "enter" ∧
    submit_message "enter" true = (true, [IAct.submitEnter]) ∧
    submit_message "ctrl+enter" true = (true, [IAct.submitCtrlEnter]) :=
  ⟨(send_key_normalized "FOO" "FOO" true).1,
   (send_key_normalized "FOO" "FOO" true).2.2.1 (by decide) (by decide),
   (send_key_normalized "FOO" "FOO" true).2.2.2.1 (by decide) (by decide),
   (send_key_normalized "FOO" "FOO" true).2.2.2.2.1 "enter" (by decide),
   (send_key_normalized "FOO" "FOO" true).2.2.2.2.2⟩

/-- The base64 alphabet map inverts the character map on six-bit values. -/
theorem b64val_b64char (n : Nat) (h : n < 64) : b64val (b64char n) = n := by
  revert h
  revert n
  decide

/-- No six-bit value encodes to the padding character. -/
theorem b64char_ne_pad (n : Nat) (h : n < 64) : b64char n ≠ '=' := by
  revert h
  revert n
  decide

/-- Base64 decoding inverts base64 encoding on byte sequences. -/
theorem b64_roundtrip (l : List Nat) (h : ∀ b ∈ l, b < 256) :
    b64decodeBytes (b64encodeBytes l) = some l := by
  induction l using b64encodeBytes.induct with
  | case1 => rfl
  | case2 b0 =>
    have hb0 : b0 < 256 := h b0 (by simp)
    simp only [b64encodeBytes, b64decodeBytes]
    rw [if_pos trivial, if_pos ⟨trivial, trivial⟩]
    rw [b64val_b64char _ (by omega), b64val_b64char _ (by omega)]
    simp only [Option.some.injEq, List.cons.injEq, and_true]
    omega
  | case3 b0 b1 =>
    have hb0 : b0 < 256 := h b0 (by simp)
    have hb1 : b1 < 256 := h b1 (by simp)
    simp only [b64encodeBytes, b64decodeBytes]
    rw [if_neg (b64char_ne_pad _ (by omega)), if_pos trivial,
      if_pos trivial]
    rw [b64val_b64char _ (by omega), b64val_b64char _ (by omega),
      b64val_b64char _ (by omega)]
    simp only [Option.some.injEq, List.cons.injEq, and_true]
    exact ⟨by omega, by omega⟩
  | case4 b0 b1 b2 rest ih =>
    have hb0 : b0 < 256 := h b0 (by simp)
    have hb1 : b1 < 256 := h b1 (by simp)
    have hb2 : b2 < 256 := h b2 (by simp)
    have ih2 := ih (fun b hb => h b (by simp [hb]))
    simp only [b64encodeBytes, b64decodeBytes]
    rw [if_neg (b64char_ne_pad _ (by omega)),
      if_neg (b64char_ne_pad _ (by omega))]
    rw [ih2]
    rw [b64val_b64char _ (by omega), b64val_b64char _ (by omega),
      b64val_b64char _ (by omega), b64val_b64char _ (by omega)]
    simp only [Option.some.injEq, List.cons.injEq, and_true]
    exact ⟨by omega, by omega, by omega⟩

/-- Base64 encoding of a non-empty byte sequence is non-empty. -/
theorem b64encode_ne_nil : ∀ l : List Nat, l ≠ [] → b64encodeBytes l ≠ []
  | [], h => absurd rfl h
  | [_], _ => by simp [b64encodeBytes]
  | [_, _], _ => by simp [b64encodeBytes]
  | _ :: _ :: _ :: _, _ => by simp [b64encodeBytes]

/-- `Config._decode` inverts `Config._encode` on byte sequences. -/
theorem config_codec_roundtrip (v : List Nat) (h : ∀ b ∈ v, b < 256) :
    config_decode (config_encode v) = v := by
  by_cases hv : v = []
  · subst hv; rfl
  · unfold config_encode config_decode
    rw [if_neg hv, if_neg (b64encode_ne_nil v hv), b64_roundtrip v h]
    rfl

/-- C10: `Config.save` followed by `Config.load` on the same path restores
every field: the base64 encoding applied to the three non-empty xfyun
credentials on save is inverted by the decoding on load, and the hotkey,
window-title keyword and send-key values are stored and read back
verbatim. -/
theorem config_save_load_roundtrip (c : ConfigData)
    (h1 : ∀ b ∈ c.xfyun_appid, b < 256)
    (h2 : ∀ b ∈ c.xfyun_api_secret, b < 256)
    (h3 : ∀ b ∈ c.xfyun_api_key, b < 256)
    (_n1 : c.xfyun_appid ≠ [])
    (_n2 : c.xfyun_api_secret ≠ [])
    (_n3 : c.xfyun_api_key ≠ []) :
    config_load (config_save c) = c := by
  cases c with
  | mk appid sec key hk kw sk =>
    simp only [config_save, config_load]
    simp only at h1 h2 h3
    rw [config_codec_roundtrip _ h1, config_codec_roundtrip _ h2,
      config_codec_roundtrip _ h3]

/-- Witness for C10 at a concrete configuration (credentials are the UTF-8
bytes of "app", "sec" and "key"). -/
theorem config_save_load_roundtrip_wit :
    config_load (config_save
      ⟨[97, 112, 112], [115, 101, 99], [107, 101, 121],
       "<ctrl>+<alt>+<space>", "OpenCode", "enter"⟩) =
      ⟨[97, 112, 112], [115, 101, 99], [107, 101, 121],
       "<ctrl>+<alt>+<space>", "OpenCode", "enter"⟩ :=
  config_save_load_roundtrip
    ⟨[97, 112, 112], [115, 101, 99], [107, 101, 121],
     "<ctrl>+<alt>+<space>", "OpenCode", "enter"⟩
    (by decide) (by decide) (by decide) (by decide) (by decide) (by decide)
